import Mathlib

/-!
Verification development for the core of a thread-per-core async I/O runtime
(monoio). The definitions below are shallow embeddings of the Rust source:

* `src/monoio/src/io/async_read_rent.rs` — `read`/`readv` for the `&[u8]`
  byte-slice source (`ByteSlice.read`, `ByteSlice.readv`);
* `src/monoio/src/runtime.rs` — `Runtime::block_on` executor loop,
  `Context::unpark_thread`, `Context::send_waker`;
* `src/monoio/src/net/listener_config.rs` — `ListenerConfig` builders.

Machine bytes are modelled as `Nat`, buffers as lists of bytes with an
explicit initialized-prefix length, and effectful code as pure state-passing
functions that also record the effects they performed (events, unparks,
sends) so that theorems can speak about what the code did.
-/

/-- A mutable owned buffer (Rust trait `IoBufMut`): backing storage of fixed
capacity `data.length` (`bytes_total`) plus the initialized-prefix length
`init` (`bytes_init`, updated via `set_init`). -/
structure IoBufMut where
  data : List Nat
  init : Nat
deriving Repr, DecidableEq

/-- The `bytes_total()` of the buffer: its capacity. -/
def IoBufMut.bytes_total (b : IoBufMut) : Nat := b.data.length

/-- The effect of `buf.write_ptr().copy_from_nonoverlapping(src, src.length)`:
overwrite the front of the backing storage with `src`, keeping the rest. -/
def IoBufMut.copy_from (b : IoBufMut) (src : List Nat) : IoBufMut :=
  { b with data := src ++ b.data.drop src.length }

/-- Rust `set_init(n)`: record that the kernel (here: the copy) initialized the
first `n` bytes. -/
def IoBufMut.set_init (b : IoBufMut) (n : Nat) : IoBufMut :=
  { b with init := n }

/-- Result of a rented read on a byte-slice source: the `BufResult` pair
(result, buffer) together with the advanced remainder of the source slice
(`*self = b` in the Rust source). Errors carry an errno. -/
structure SliceRead where
  res : Except Nat Nat
  buf : IoBufMut
  rest : List Nat
deriving Repr

namespace ByteSlice

/-- Rust `<&[u8] as AsyncReadRent>::read` from `async_read_rent.rs`:
`amt = min(self.len(), buf.bytes_total())`; copy the first `amt` source
bytes into the buffer, `set_init(amt)`, advance the source, return
`(Ok(amt), buf)`. -/
def read (s : List Nat) (buf : IoBufMut) : SliceRead :=
  let amt := min s.length buf.bytes_total
  let buf1 := buf.copy_from (s.take amt)
  let buf2 := buf1.set_init amt
  { res := Except.ok amt, buf := buf2, rest := s.drop amt }

end ByteSlice

/-- A vectored mutable buffer (Rust trait `IoVecBufMut`): a sequence of
(ptr,len) descriptors, each with the single-buffer contract. Modelled from
the spec: the `buf` module is not part of the sources under review; §3 of
the spec describes vectored variants as "an array of (ptr,len) descriptors
with the same contract per descriptor". -/
structure IoVecBufMut where
  segs : List IoBufMut
deriving Repr, DecidableEq

/-- Modelled from the spec: `IoVecBufMut::set_init(n)` distributes the `n`
initialized bytes over the descriptors in order, each taking at most its
capacity ("the same contract per descriptor"). -/
def set_init_vec : List IoBufMut → Nat → List IoBufMut
  | [], _ => []
  | b :: bs, n =>
    let k := min n b.bytes_total
    b.set_init k :: set_init_vec bs (n - k)

/-- Modelled from the spec: `RawBuf::new_from_iovec_mut` forms a raw buffer
from the descriptor set, failing exactly when the iovec set is empty
("`readv(buf)` with an empty iovec set returns `(Ok(0), buf)` immediately");
otherwise the raw buffer aliases the first descriptor. -/
def new_from_iovec_mut (buf : IoVecBufMut) : Option IoBufMut :=
  match buf.segs with
  | [] => none
  | b :: _ => some b

/-- Result of `readv` on a byte-slice source. -/
structure VecRead where
  res : Except Nat Nat
  buf : IoVecBufMut
  rest : List Nat
deriving Repr

/-- The tail of the `readv` body after the inner read produced `n`:
`if let Ok(n) = n { buf.set_init(n) }; (n, buf)` — `set_init` is invoked
only in the `Ok` branch; in the `Err` branch the buffer is returned
untouched. -/
def readv_finish (n : Except Nat Nat) (buf : IoVecBufMut) :
    Except Nat Nat × IoVecBufMut :=
  match n with
  | Except.ok k => (Except.ok k, ⟨set_init_vec buf.segs k⟩)
  | Except.error e => (Except.error e, buf)

namespace ByteSlice

/-- Rust `<&[u8] as AsyncReadRent>::readv` from `async_read_rent.rs`: form a raw
buffer from the iovec set (`new_from_iovec_mut` is `none` exactly on the
empty set, giving `Ok(0)` without touching the source); otherwise `read`
into it — the raw buffer aliases the first descriptor, so the write lands
there — then `readv_finish`. -/
def readv (s : List Nat) (buf : IoVecBufMut) : VecRead :=
  match buf.segs with
  | [] =>
    let (r, buf1) := readv_finish (Except.ok 0) buf
    { res := r, buf := buf1, rest := s }
  | b :: bs =>
    let inner := read s b
    let (r, buf1) := readv_finish inner.res ⟨inner.buf :: bs⟩
    { res := r, buf := buf1, rest := inner.rest }

end ByteSlice

/-! ## The executor loop (`Runtime::block_on`, `src/monoio/src/runtime.rs`)

The run queue holds tasks; running a task may push further tasks onto the
queue and may wake the root future's waker (`set_poll`). Task behaviours
are modelled by a small closed language sufficient to exercise the loop.
Everything lives in the `Sched` namespace because `Task` is taken by the
Lean core library. -/

namespace Sched

/-- A runnable task, identified by its behaviour when `run`:
`noop` finishes; `cyclic` unconditionally re-enqueues itself; `wakeRoot`
wakes the root future's dummy waker (calling `set_poll`); `spawnTwo`
enqueues two fresh `noop` tasks. -/
inductive Task where
  | noop
  | cyclic
  | wakeRoot
  | spawnTwo
deriving Repr, DecidableEq

/-- Running `t.run()`: the tasks pushed onto the run queue, and whether the root
future's "poll needed" flag was set during the run. -/
def Task.run : Task → List Task × Bool
  | Task.noop => ([], false)
  | Task.cyclic => ([Task.cyclic], false)
  | Task.wakeRoot => ([], true)
  | Task.spawnTwo => ([Task.noop, Task.noop], false)

/-- Outcome of one drain batch: the remaining queue, whether some task set
the "poll needed" flag, and how many tasks were popped and run. -/
structure DrainOut where
  queue : List Task
  woke : Bool
  count : Nat
deriving Repr, DecidableEq

/-- The inner drain loop of `block_on`:
`while let Some(t) = tasks.pop() { t.run(); if max_round == 0 { break } else
{ max_round -= 1 } }` — note the task is run *before* the counter test. -/
def drain (q : List Task) (maxRound : Nat) : DrainOut :=
  match q with
  | [] => ⟨[], false, 0⟩
  | t :: rest =>
    let r := t.run
    let q1 := rest ++ r.1
    match maxRound with
    | 0 => ⟨q1, r.2, 1⟩
    | m + 1 =>
      let d := drain q1 m
      ⟨d.queue, r.2 || d.woke, d.count + 1⟩

/-- One batch as `block_on` performs it: `max_round` starts at
`tasks.len() * 2`. -/
def drainBatch (q : List Task) : DrainOut :=
  drain q (q.length * 2)

/-- Observable actions of the executor, in order. -/
inductive Event (α : Type) where
  | ranTask
  | polledRoot (res : Option α)
  | submitted
  | parked
deriving Repr, DecidableEq

/-- Executor state: the local run queue, the root future's "poll needed"
flag (the `should_poll`/`set_poll` thread-local), the root future modelled
as a script of poll outcomes `(result, wakes-itself?)` (empty script polls
as pending), and the driver modelled as a script of `park()` outcomes
`(tasks woken by completions, root woken?)`. -/
structure ExecState (α : Type) where
  tasks : List Task
  pollNeeded : Bool
  rootScript : List (Option α × Bool)
  parkScript : List (List Task × Bool)

/-- Result of one inner-loop iteration: the value returned by `block_on`
(if the root completed), the new state, whether the root future was polled
in this iteration, and the events performed. -/
structure StepOut (α : Type) where
  ret : Option α
  state : ExecState α
  rootPolled : Bool
  events : List (Event α)

/-- One poll of the scripted root future with the dummy waker: its result,
whether the poll set the "poll needed" flag again through the root's own
waker, and the rest of the script (an exhausted script polls as pending
without self-waking). -/
def pollRoot {α : Type} : List (Option α × Bool) →
    Option α × Bool × List (Option α × Bool)
  | [] => (none, false, [])
  | (res, sw) :: rest => (res, sw, rest)

/-- Dispatch on the outcome of the root poll inside the
`if let Poll::Ready(t) = join.as_mut().poll(cx) { return t }` check:
`Ready` makes the iteration return the value; `Pending` leaves the flag as
the poll's self-wake bit. -/
def afterPoll {α : Type} (s : ExecState α) (d : DrainOut) (evs : List (Event α)) :
    Option α × Bool × List (Option α × Bool) → StepOut α
  | (some v, _, rest) =>
    ⟨some v, { s with tasks := d.queue, pollNeeded := false, rootScript := rest },
      true, evs ++ [Event.polledRoot (some v)]⟩
  | (none, sw, rest) =>
    ⟨none, { s with tasks := d.queue, pollNeeded := sw, rootScript := rest },
      true, evs ++ [Event.polledRoot none]⟩

/-- One iteration of the inner loop of `block_on`: drain the queue with the
`2·len` round cap, then `if should_poll() { if let Ready(t) = poll { return
t } }` — `should_poll` reads the flag (set before the loop, by task wakes
during the drain, or by the root's own waker) and clears it. -/
def innerStep {α : Type} (s : ExecState α) : StepOut α :=
  let d := drain s.tasks (s.tasks.length * 2)
  let evs := List.replicate d.count (Event.ranTask)
  if s.pollNeeded || d.woke then
    afterPoll s d evs (pollRoot s.rootScript)
  else
    ⟨none, { s with tasks := d.queue, pollNeeded := false }, false, evs⟩

/-- After the root check: if the queue is empty, break to `driver.park()`
(completions push woken tasks and may wake the root); otherwise
`driver.submit()` and continue the inner loop. -/
def parkOrSubmit {α : Type} (s : ExecState α) : ExecState α × Event α :=
  if s.tasks.isEmpty then
    match s.parkScript with
    | [] => (s, Event.parked)
    | (woken, rootWake) :: rest =>
      ({ s with tasks := s.tasks ++ woken,
                pollNeeded := s.pollNeeded || rootWake,
                parkScript := rest }, Event.parked)
  else
    (s, Event.submitted)

/-- The `block_on` loop, fuel-bounded: each fuel unit is one inner
iteration followed (when the root is not ready) by a park or submit.
Returns the root's value if it completed, the final state, and the event
trace. -/
def runLoop {α : Type} : Nat → ExecState α → Option α × ExecState α × List (Event α)
  | 0, s => (none, s, [])
  | fuel + 1, s =>
    let st := innerStep s
    match st.ret with
    | some v => (some v, st.state, st.events)
    | none =>
      let ps := parkOrSubmit st.state
      let r := runLoop fuel ps.1
      (r.1, r.2.1, st.events ++ ps.2 :: r.2.2)

/-- Outcome of `block_on`: the reentrancy assertion fired, the root
completed with a value, or the fuel ran out while the loop was still
going. Each outcome carries the final runtime state and the event trace. -/
inductive BlockOnResult (α : Type) where
  | panicked (state : ExecState α) (trace : List (Event α))
  | finished (v : α) (state : ExecState α) (trace : List (Event α))
  | fuelOut (state : ExecState α) (trace : List (Event α))

/-- Rust `Runtime::block_on`: first `assert!(!CURRENT.is_set())` — if a runtime
context is already active on this thread the assertion fires before
anything is touched; otherwise `set_poll()` raises the "poll needed" flag
and the loop runs. -/
def block_on {α : Type} (currentSet : Bool) (fuel : Nat) (s : ExecState α) :
    BlockOnResult α :=
  if currentSet then
    BlockOnResult.panicked s []
  else
    let r := runLoop fuel { s with pollNeeded := true }
    match r.1 with
    | some v => BlockOnResult.finished v r.2.1 r.2.2
    | none => BlockOnResult.fuelOut r.2.1 r.2.2

/-- The value a `block_on` outcome returned, if any. -/
def BlockOnResult.value {α : Type} : BlockOnResult α → Option α
  | BlockOnResult.finished v _ _ => some v
  | BlockOnResult.panicked _ _ => none
  | BlockOnResult.fuelOut _ _ => none

/-- The event trace of a `block_on` outcome. -/
def BlockOnResult.trace {α : Type} : BlockOnResult α → List (Event α)
  | BlockOnResult.finished _ _ t => t
  | BlockOnResult.panicked _ t => t
  | BlockOnResult.fuelOut _ t => t

end Sched

/-! ## Cross-thread wake endpoints (`Context::unpark_thread`,
`Context::send_waker`, `src/monoio/src/runtime.rs`)

Unpark handles, waker senders and wakers are opaque to this code path; they
are modelled as naturals. The per-thread caches are association lists (the
Rust `FxHashMap`s); `HashMap::insert` is modelled as a front insertion, and
lookups are `List.lookup`. -/

/-- An `UnparkHandle` endpoint (opaque). -/
abbrev UnparkHandle := Nat

/-- A `flume::Sender<Waker>` endpoint (opaque). -/
abbrev WakerSender := Nat

/-- A `std::task::Waker` (opaque). -/
abbrev Waker := Nat

/-- The parts of the runtime `Context` that `unpark_thread` and
`send_waker` touch: the per-thread unpark-handle cache and waker-sender
cache, keyed by thread id. (`thread_id`, the task queue and the time
handle play no role in these two methods and are omitted.) -/
structure Context where
  unpark_cache : List (Nat × UnparkHandle)
  waker_sender_cache : List (Nat × WakerSender)
deriving Repr, DecidableEq

/-- Modelled from the spec: the global peer-thread registry, "an
append-only concurrent map keyed by thread id" holding the unpark and
waker-send endpoints (`driver::thread::get_unpark_handle`,
`driver::thread::get_waker_sender` are not among the sources under
review). -/
structure Registry where
  unpark_handles : List (Nat × UnparkHandle)
  waker_senders : List (Nat × WakerSender)
deriving Repr, DecidableEq

/-- Result of `Context::unpark_thread`: the (possibly updated) context,
the handle whose `unpark()` was invoked (if any), whether the global
registry was consulted, and whether `debug_assert!(false)` was reached
(a panic in debug builds, a silent no-op in release builds). -/
structure UnparkOut where
  ctx : Context
  unparked : Option UnparkHandle
  globalLookup : Bool
  assertFailed : Bool
deriving Repr, DecidableEq

/-- Rust `Context::unpark_thread(id)`: try the local cache first and unpark the
cached handle; on a miss, look the handle up in the global registry, write
it back to the local cache and unpark it; if both miss,
`debug_assert!(false, "thread to unpark has not been registered")`. -/
def Context.unpark_thread (reg : Registry) (ctx : Context) (id : Nat) : UnparkOut :=
  match ctx.unpark_cache.lookup id with
  | some handle => ⟨ctx, some handle, false, false⟩
  | none =>
    match reg.unpark_handles.lookup id with
    | some v =>
      ⟨{ ctx with unpark_cache := (id, v) :: ctx.unpark_cache }, some v, true, false⟩
    | none => ⟨ctx, none, true, true⟩

/-- Result of `Context::send_waker`: the (possibly updated) context, the
`(sender, waker)` pair actually sent (if any), whether the global registry
was consulted, and whether `debug_assert!(false)` was reached. -/
structure SendWakerOut where
  ctx : Context
  sent : Option (WakerSender × Waker)
  globalLookup : Bool
  assertFailed : Bool
deriving Repr, DecidableEq

/-- Rust `Context::send_waker(id, w)`: try the local cache first and send `w`
through the cached sender; on a miss, look the sender up in the global
registry, send through it and write it back to the local cache; if both
miss, `debug_assert!(false, "sender has not been registered")`. -/
def Context.send_waker (reg : Registry) (ctx : Context) (id : Nat) (w : Waker) :
    SendWakerOut :=
  match ctx.waker_sender_cache.lookup id with
  | some sender => ⟨ctx, some (sender, w), false, false⟩
  | none =>
    match reg.waker_senders.lookup id with
    | some s =>
      ⟨{ ctx with waker_sender_cache := (id, s) :: ctx.waker_sender_cache },
        some (s, w), true, false⟩
    | none => ⟨ctx, none, true, true⟩

/-! ## `ListenerConfig` (`src/monoio/src/net/listener_config.rs`) -/

/-- A socket address (opaque to the listener config; modelled as an
(ip, port) pair of naturals). -/
abbrev SocketAddr := Nat × Nat

/-- Custom listener config (struct `ListenerConfig`). `backlog` is an
`i32`, hence `Int`. -/
structure ListenerConfig where
  reuse_port : Bool
  reuse_addr : Bool
  ip_transparent : Bool
  bind_address : Option SocketAddr
  backlog : Int
  send_buf_size : Option Nat
  recv_buf_size : Option Nat
deriving Repr, DecidableEq

namespace ListenerConfig

/-- Rust `ListenerConfig::default()`. -/
def default : ListenerConfig :=
  { reuse_port := true
    reuse_addr := true
    ip_transparent := false
    bind_address := none
    backlog := 1024
    send_buf_size := none
    recv_buf_size := none }

/-- Builder `reuse_port`: enable SO_REUSEPORT. -/
def set_reuse_port (c : ListenerConfig) (v : Bool) : ListenerConfig :=
  { c with reuse_port := v }

/-- Builder `reuse_addr`: enable SO_REUSEADDR. -/
def set_reuse_addr (c : ListenerConfig) (v : Bool) : ListenerConfig :=
  { c with reuse_addr := v }

/-- Builder `ip_transparent`: enable IP_TRANSPARENT. -/
def set_ip_transparent (c : ListenerConfig) (v : Bool) : ListenerConfig :=
  { c with ip_transparent := v }

/-- Builder `bind_address`: specify socket bind address. -/
def set_bind_address (c : ListenerConfig) (v : SocketAddr) : ListenerConfig :=
  { c with bind_address := some v }

/-- Builder `backlog`: specify backlog. -/
def set_backlog (c : ListenerConfig) (v : Int) : ListenerConfig :=
  { c with backlog := v }

/-- Builder `send_buf_size`: specify SO_SNDBUF. -/
def set_send_buf_size (c : ListenerConfig) (v : Nat) : ListenerConfig :=
  { c with send_buf_size := some v }

/-- Builder `recv_buf_size`: specify SO_RCVBUF. -/
def set_recv_buf_size (c : ListenerConfig) (v : Nat) : ListenerConfig :=
  { c with recv_buf_size := some v }

end ListenerConfig

/-! ## Theorems -/

/-- Helper: taking back what an overwrite of the buffer front wrote
recovers the written bytes. -/
theorem take_of_copy_front (src data : List Nat) (n : Nat) (h : src.length = n) :
    (src ++ data.drop src.length).take n = src := by
  subst h
  exact List.take_left src _

/-- C1: for every source byte slice `s` and mutable owned buffer `buf`,
`read(buf)` returns `(Ok(n), buf)` with `n = min(s.length, bytes_total)`,
the first `n` bytes of the buffer equal the first `n` bytes of the source,
the buffer's initialized length is set to `n`, the capacity is unchanged,
and the source is advanced past those `n` bytes; concretely, on source
`[0x41,0x42,0x43,0x44]` with a capacity-3 buffer three successive reads
return `Ok(3)` with `[0x41,0x42,0x43]`, then `Ok(1)`, then `Ok(0)`. -/
theorem c1_slice_read_correct :
    (∀ (s : List Nat) (buf : IoBufMut),
      (ByteSlice.read s buf).res = Except.ok (min s.length buf.bytes_total) ∧
      (ByteSlice.read s buf).buf.data.take (min s.length buf.bytes_total) =
        s.take (min s.length buf.bytes_total) ∧
      (ByteSlice.read s buf).buf.init = min s.length buf.bytes_total ∧
      (ByteSlice.read s buf).buf.bytes_total = buf.bytes_total ∧
      (ByteSlice.read s buf).rest = s.drop (min s.length buf.bytes_total)) ∧
    (let r1 := ByteSlice.read [0x41, 0x42, 0x43, 0x44] ⟨[0, 0, 0], 0⟩
     let r2 := ByteSlice.read r1.rest r1.buf
     let r3 := ByteSlice.read r2.rest r2.buf
     r1.res = Except.ok 3 ∧ r1.buf.data = [0x41, 0x42, 0x43] ∧
       r1.buf.init = 3 ∧ r2.res = Except.ok 1 ∧ r3.res = Except.ok 0) := by
  constructor
  · intro s buf
    have hle : min s.length buf.bytes_total ≤ s.length := Nat.min_le_left _ _
    have hlen : (s.take (min s.length buf.bytes_total)).length =
        min s.length buf.bytes_total := by
      simp [List.length_take, Nat.min_eq_left hle]
    refine ⟨rfl, ?_, rfl, ?_, rfl⟩
    · exact take_of_copy_front _ _ _ hlen
    · show ((s.take (min s.length buf.bytes_total)) ++
        buf.data.drop (s.take (min s.length buf.bytes_total)).length).length =
          buf.data.length
      have hmin : min s.length buf.bytes_total ≤ buf.data.length :=
        Nat.min_le_right _ _
      simp only [List.length_append, List.length_take, List.length_drop,
        IoBufMut.bytes_total]
      omega
  · exact ⟨rfl, rfl, rfl, rfl, rfl⟩

/-- Helper: distributing an init length over the descriptors does not
change how many descriptors there are. -/
theorem set_init_vec_length (bs : List IoBufMut) (n : Nat) :
    (set_init_vec bs n).length = bs.length := by
  induction bs generalizing n with
  | nil => rfl
  | cons b bs ih => simp [set_init_vec, ih]

/-- Helper: distributing an init length over the descriptors does not
change their contents. -/
theorem set_init_vec_data (bs : List IoBufMut) (n : Nat) :
    (set_init_vec bs n).map IoBufMut.data = bs.map IoBufMut.data := by
  induction bs generalizing n with
  | nil => rfl
  | cons b bs ih => simp [set_init_vec, IoBufMut.set_init, ih]

/-- C2: the owned buffer is returned to the caller paired with the result
in both branches of the `readv` tail: in the `Err` branch it comes back
untouched (in particular with every descriptor's initialized length
unchanged), `set_init` is invoked only in the `Ok` branch, and the
byte-slice `readv` always hands back a buffer with the same descriptor
set size. -/
theorem c2_buffer_returned_even_on_error :
    (∀ (e : Nat) (buf : IoVecBufMut),
      readv_finish (Except.error e) buf = (Except.error e, buf)) ∧
    (∀ (e : Nat) (buf : IoVecBufMut),
      ((readv_finish (Except.error e) buf).2.segs.map IoBufMut.init) =
        buf.segs.map IoBufMut.init) ∧
    (∀ (k : Nat) (buf : IoVecBufMut),
      readv_finish (Except.ok k) buf =
        (Except.ok k, ⟨set_init_vec buf.segs k⟩)) ∧
    (∀ (s : List Nat) (buf : IoVecBufMut),
      (ByteSlice.readv s buf).buf.segs.length = buf.segs.length) := by
  refine ⟨fun e buf => rfl, fun e buf => rfl, fun k buf => rfl, fun s buf => ?_⟩
  match h : buf.segs with
  | [] =>
    simp [ByteSlice.readv, h, readv_finish, set_init_vec]
  | b :: bs =>
    simp [ByteSlice.readv, h, readv_finish, ByteSlice.read, set_init_vec,
      set_init_vec_length]

/-- C3: `readv` on a vectored mutable buffer with an empty iovec set (the
only state from which no raw buffer can be formed) returns `(Ok(0), buf)`
immediately, leaving the source untouched. -/
theorem c3_readv_empty_iovec :
    ∀ s : List Nat,
      new_from_iovec_mut ⟨[]⟩ = none ∧
      ByteSlice.readv s ⟨[]⟩ = { res := Except.ok 0, buf := ⟨[]⟩, rest := s } :=
  fun _s => ⟨rfl, rfl⟩

/-- C10: each `ListenerConfig` builder updates exactly its named field
(wrapped in `some` for `bind_address`, `send_buf_size`, `recv_buf_size`)
and leaves every other field equal to its value in the input config. -/
theorem c10_listener_config_builders_frame (c : ListenerConfig) (b : Bool)
    (a : SocketAddr) (k : Int) (n : Nat) :
    (c.set_reuse_port b).reuse_port = b ∧
    (c.set_reuse_port b).reuse_addr = c.reuse_addr ∧
    (c.set_reuse_port b).ip_transparent = c.ip_transparent ∧
    (c.set_reuse_port b).bind_address = c.bind_address ∧
    (c.set_reuse_port b).backlog = c.backlog ∧
    (c.set_reuse_port b).send_buf_size = c.send_buf_size ∧
    (c.set_reuse_port b).recv_buf_size = c.recv_buf_size ∧
    (c.set_reuse_addr b).reuse_addr = b ∧
    (c.set_reuse_addr b).reuse_port = c.reuse_port ∧
    (c.set_reuse_addr b).ip_transparent = c.ip_transparent ∧
    (c.set_reuse_addr b).bind_address = c.bind_address ∧
    (c.set_reuse_addr b).backlog = c.backlog ∧
    (c.set_reuse_addr b).send_buf_size = c.send_buf_size ∧
    (c.set_reuse_addr b).recv_buf_size = c.recv_buf_size ∧
    (c.set_ip_transparent b).ip_transparent = b ∧
    (c.set_ip_transparent b).reuse_port = c.reuse_port ∧
    (c.set_ip_transparent b).reuse_addr = c.reuse_addr ∧
    (c.set_ip_transparent b).bind_address = c.bind_address ∧
    (c.set_ip_transparent b).backlog = c.backlog ∧
    (c.set_ip_transparent b).send_buf_size = c.send_buf_size ∧
    (c.set_ip_transparent b).recv_buf_size = c.recv_buf_size ∧
    (c.set_bind_address a).bind_address = some a ∧
    (c.set_bind_address a).reuse_port = c.reuse_port ∧
    (c.set_bind_address a).reuse_addr = c.reuse_addr ∧
    (c.set_bind_address a).ip_transparent = c.ip_transparent ∧
    (c.set_bind_address a).backlog = c.backlog ∧
    (c.set_bind_address a).send_buf_size = c.send_buf_size ∧
    (c.set_bind_address a).recv_buf_size = c.recv_buf_size ∧
    (c.set_backlog k).backlog = k ∧
    (c.set_backlog k).reuse_port = c.reuse_port ∧
    (c.set_backlog k).reuse_addr = c.reuse_addr ∧
    (c.set_backlog k).ip_transparent = c.ip_transparent ∧
    (c.set_backlog k).bind_address = c.bind_address ∧
    (c.set_backlog k).send_buf_size = c.send_buf_size ∧
    (c.set_backlog k).recv_buf_size = c.recv_buf_size ∧
    (c.set_send_buf_size n).send_buf_size = some n ∧
    (c.set_send_buf_size n).reuse_port = c.reuse_port ∧
    (c.set_send_buf_size n).reuse_addr = c.reuse_addr ∧
    (c.set_send_buf_size n).ip_transparent = c.ip_transparent ∧
    (c.set_send_buf_size n).bind_address = c.bind_address ∧
    (c.set_send_buf_size n).backlog = c.backlog ∧
    (c.set_send_buf_size n).recv_buf_size = c.recv_buf_size ∧
    (c.set_recv_buf_size n).recv_buf_size = some n ∧
    (c.set_recv_buf_size n).reuse_port = c.reuse_port ∧
    (c.set_recv_buf_size n).reuse_addr = c.reuse_addr ∧
    (c.set_recv_buf_size n).ip_transparent = c.ip_transparent ∧
    (c.set_recv_buf_size n).bind_address = c.bind_address ∧
    (c.set_recv_buf_size n).backlog = c.backlog ∧
    (c.set_recv_buf_size n).send_buf_size = c.send_buf_size := by
  repeat constructor

/-- C4: calling `block_on` while a runtime context is already active on the
same thread (the scoped thread-local `CURRENT` is set) hits the reentrancy
assertion and panics before any runtime state is mutated: the state comes
back exactly as it went in and the event trace is empty — no run-queue pop
or push, no context change, no driver submit or park. -/
theorem c4_block_on_reentrancy_aborts_before_mutation (α : Type) (fuel : Nat)
    (s : Sched.ExecState α) :
    Sched.block_on true fuel s = Sched.BlockOnResult.panicked s [] := rfl

/-- Helper: the drain loop runs at most `maxRound + 1` tasks (one task is
run before each counter test, including the test that breaks at zero). -/
theorem drain_count_le (q : List Sched.Task) (maxRound : Nat) :
    (Sched.drain q maxRound).count ≤ maxRound + 1 := by
  induction maxRound generalizing q with
  | zero => cases q <;> simp [Sched.drain]
  | succ m ih =>
    cases q with
    | nil => simp [Sched.drain]
    | cons t rest =>
      simp only [Sched.drain]
      exact Nat.succ_le_succ (ih _)

/-- C5 counterexample: for a batch starting with a single task that
unconditionally re-enqueues itself (`N = 1`), the drain loop pops and runs
3 tasks — strictly more than the claimed `2·N = 2` — because a task is run
*before* the round counter is tested. -/
theorem c5_counterexample_two_n_exceeded :
    (Sched.drainBatch [Sched.Task.cyclic]).count = 3 ∧
    ¬((Sched.drainBatch [Sched.Task.cyclic]).count ≤
        2 * [Sched.Task.cyclic].length) := by
  decide

/-- C5 (amended): in every inner batch, if `N` is the run-queue length at
the start of the batch, the executor pops and runs at most `2·N + 1` tasks
before breaking out of the drain loop, so a task that unconditionally
re-enqueues itself cannot prevent the driver from being given a chance to
submit and park. -/
theorem c5_drain_round_cap (q : List Sched.Task) :
    (Sched.drainBatch q).count ≤ 2 * q.length + 1 := by
  have h := drain_count_le q (q.length * 2)
  simpa [Sched.drainBatch, Nat.mul_comm] using h

/-- Helper: when the flag is up at entry, the iteration's event list
contains a root poll. -/
theorem innerStep_polls_of_flag {α : Type} (s : Sched.ExecState α)
    (h : s.pollNeeded = true) :
    ∃ r, Sched.Event.polledRoot r ∈ (Sched.innerStep s).events := by
  rcases hr : s.rootScript with _ | ⟨⟨res, sw⟩, rest⟩
  · simp [Sched.innerStep, Sched.pollRoot, Sched.afterPoll, hr, h]
  · cases res <;>
      simp [Sched.innerStep, Sched.pollRoot, Sched.afterPoll, hr, h]

/-- Helper: a ready root poll leaves exactly one `polledRoot` event, whose
payload is the returned value. -/
theorem innerStep_events_of_some {α : Type} (s : Sched.ExecState α) (v w : α)
    (h : (Sched.innerStep s).ret = some v) :
    Sched.Event.polledRoot (some w) ∈ (Sched.innerStep s).events ↔ w = v := by
  rcases hr : s.rootScript with _ | ⟨⟨res, sw⟩, rest⟩ <;>
    cases hp : s.pollNeeded <;>
    cases hw : (Sched.drain s.tasks (s.tasks.length * 2)).woke <;>
    simp only [Sched.innerStep, Sched.pollRoot, Sched.afterPoll, hr, hp, hw,
      Bool.false_or, Bool.true_or, Bool.or_false, Bool.or_true, if_true,
      if_false, Bool.false_eq_true, ite_false, ite_true] at h ⊢ <;>
    first
    | exact absurd h (by simp)
    | (cases res with
       | none => exact absurd h (by simp [Sched.afterPoll])
       | some u =>
         simp only [Sched.afterPoll] at h ⊢
         simp only [Option.some.injEq] at h
         subst h
         simp [List.mem_append, List.mem_replicate])

/-- Helper: a pending iteration never records a ready root poll. -/
theorem innerStep_events_of_none {α : Type} (s : Sched.ExecState α) (w : α)
    (h : (Sched.innerStep s).ret = none) :
    Sched.Event.polledRoot (some w) ∉ (Sched.innerStep s).events := by
  rcases hr : s.rootScript with _ | ⟨⟨res, sw⟩, rest⟩ <;>
    cases hp : s.pollNeeded <;>
    cases hw : (Sched.drain s.tasks (s.tasks.length * 2)).woke <;>
    simp only [Sched.innerStep, Sched.pollRoot, Sched.afterPoll, hr, hp, hw,
      Bool.false_or, Bool.true_or, Bool.or_false, Bool.or_true, if_true,
      if_false, Bool.false_eq_true, ite_false, ite_true] at h ⊢ <;>
    first
    | simp [List.mem_replicate]
    | (cases res with
       | none =>
         simp [Sched.afterPoll, List.mem_append, List.mem_replicate]
       | some u => exact absurd h (by simp [Sched.afterPoll]))

/-- Helper: the break-out action is always a park or a submit, never a
root poll or a task run. -/
theorem parkOrSubmit_event {α : Type} (s : Sched.ExecState α) :
    (Sched.parkOrSubmit s).2 = Sched.Event.parked ∨
    (Sched.parkOrSubmit s).2 = Sched.Event.submitted := by
  by_cases h : s.tasks.isEmpty
  · rcases hp : s.parkScript with _ | ⟨⟨woken, rw'⟩, rest⟩ <;>
      simp [Sched.parkOrSubmit, h, hp]
  · simp [Sched.parkOrSubmit, h]

/-- C6: in every iteration of the executor loop the root future is polled
exactly when the "poll needed" flag is up at the `should_poll()` check
(raised before the iteration or by a task wake during the drain); since
`set_poll()` runs once before the loop starts, the state the loop starts
from polls the root in its first iteration, and every loop run beginning
with the flag raised records a root poll; when the flag is clear the root
is not re-polled. -/
theorem c6_root_poll_gated_by_flag (α : Type) (s : Sched.ExecState α) :
    ((Sched.innerStep s).rootPolled =
      (s.pollNeeded || (Sched.drain s.tasks (s.tasks.length * 2)).woke)) ∧
    ((Sched.innerStep { s with pollNeeded := true }).rootPolled = true) ∧
    (∀ fuel : Nat, ∃ r, Sched.Event.polledRoot r ∈
      (Sched.runLoop (fuel + 1) { s with pollNeeded := true }).2.2) := by
  refine ⟨?_, ?_, ?_⟩
  · cases hp : s.pollNeeded <;>
      cases hw : (Sched.drain s.tasks (s.tasks.length * 2)).woke <;>
      rcases hr : s.rootScript with _ | ⟨⟨_ | u, sw⟩, rest⟩ <;>
      simp [Sched.innerStep, Sched.pollRoot, Sched.afterPoll, hp, hw, hr]
  · rcases hr : s.rootScript with _ | ⟨⟨_ | u, sw⟩, rest⟩ <;>
      simp [Sched.innerStep, Sched.pollRoot, Sched.afterPoll, hr]
  · intro fuel
    obtain ⟨r, hmem⟩ :=
      innerStep_polls_of_flag { s with pollNeeded := true } rfl
    cases hret : (Sched.innerStep { s with pollNeeded := true }).ret with
    | some w =>
      refine ⟨r, ?_⟩
      simp only [Sched.runLoop, hret]
      exact hmem
    | none =>
      refine ⟨r, ?_⟩
      simp only [Sched.runLoop, hret]
      exact List.mem_append_left _ hmem

/-- Helper: the fuel-bounded loop returns `v` exactly when its event trace
records a ready root poll with payload `v`. -/
theorem runLoop_ret_iff_ready (α : Type) (fuel : Nat) (s : Sched.ExecState α)
    (v : α) :
    (Sched.runLoop fuel s).1 = some v ↔
      Sched.Event.polledRoot (some v) ∈ (Sched.runLoop fuel s).2.2 := by
  induction fuel generalizing s with
  | zero => simp [Sched.runLoop]
  | succ fuel ih =>
    cases hret : (Sched.innerStep s).ret with
    | some w =>
      have hm := innerStep_events_of_some s w v hret
      simp only [Sched.runLoop, hret]
      rw [hm]
      simp [eq_comm]
    | none =>
      have hm := innerStep_events_of_none s v hret
      have hps := parkOrSubmit_event (Sched.innerStep s).state
      simp only [Sched.runLoop, hret]
      rcases hps with hps | hps <;>
        simp [List.mem_append, List.mem_cons, hm, hps, ih]

/-- C7: `block_on` (entered with no runtime active) returns exactly when a
poll of the root future returns `Ready(v)`: the outcome carries value `v`
iff the trace records a root poll that returned `v`, and the value
returned is that poll's output. -/
theorem c7_block_on_returns_ready_value (α : Type) (fuel : Nat)
    (s : Sched.ExecState α) (v : α) :
    (Sched.block_on false fuel s).value = some v ↔
      Sched.Event.polledRoot (some v) ∈ (Sched.block_on false fuel s).trace := by
  have h := runLoop_ret_iff_ready α fuel { s with pollNeeded := true } v
  cases hr : (Sched.runLoop fuel { s with pollNeeded := true }).1 with
  | some w =>
    rw [hr] at h
    simpa [Sched.block_on, hr, Sched.BlockOnResult.value,
      Sched.BlockOnResult.trace] using h
  | none =>
    rw [hr] at h
    simpa [Sched.block_on, hr, Sched.BlockOnResult.value,
      Sched.BlockOnResult.trace] using h

/-- C8: for a thread id neither in the local cache nor registered in the
global registry, `Context::unpark_thread(id)` and
`Context::send_waker(id, w)` reach `debug_assert!(false)` (a panic in
debug builds) and in release builds return silently: nothing is unparked,
nothing is sent, and the caches are unmodified. -/
theorem c8_unregistered_peer_wake (reg : Registry) (ctx : Context)
    (id : Nat) (w : Waker)
    (h1 : ctx.unpark_cache.lookup id = none)
    (h2 : reg.unpark_handles.lookup id = none)
    (h3 : ctx.waker_sender_cache.lookup id = none)
    (h4 : reg.waker_senders.lookup id = none) :
    Context.unpark_thread reg ctx id = ⟨ctx, none, true, true⟩ ∧
    Context.send_waker reg ctx id w = ⟨ctx, none, true, true⟩ := by
  constructor
  · simp [Context.unpark_thread, h1, h2]
  · simp [Context.send_waker, h3, h4]

/-- C8 witness: thread id 7 is nowhere registered; both calls fall through
to the debug assertion with no effect. -/
theorem c8_unregistered_peer_wake_witness :
    Context.unpark_thread ⟨[], []⟩ ⟨[], []⟩ 7 = ⟨⟨[], []⟩, none, true, true⟩ ∧
    Context.send_waker ⟨[], []⟩ ⟨[], []⟩ 7 5 = ⟨⟨[], []⟩, none, true, true⟩ :=
  c8_unregistered_peer_wake ⟨[], []⟩ ⟨[], []⟩ 7 5 rfl rfl rfl rfl

/-- C9: both wake paths consult the thread-local cache first — a hit uses
the cached endpoint with no global lookup and no cache change; a miss that
finds the endpoint in the global registry uses it and writes it back into
the local cache, so a later call for the same id is a cache hit that
performs no global lookup. -/
theorem c9_peer_endpoint_cache (reg : Registry) (ctx : Context) (id : Nat)
    (w : Waker) (uh uv : UnparkHandle) (sh sv : WakerSender) :
    (ctx.unpark_cache.lookup id = some uh →
      Context.unpark_thread reg ctx id = ⟨ctx, some uh, false, false⟩) ∧
    (ctx.unpark_cache.lookup id = none →
      reg.unpark_handles.lookup id = some uv →
      Context.unpark_thread reg ctx id =
        ⟨⟨(id, uv) :: ctx.unpark_cache, ctx.waker_sender_cache⟩,
          some uv, true, false⟩ ∧
      Context.unpark_thread reg
          ⟨(id, uv) :: ctx.unpark_cache, ctx.waker_sender_cache⟩ id =
        ⟨⟨(id, uv) :: ctx.unpark_cache, ctx.waker_sender_cache⟩,
          some uv, false, false⟩) ∧
    (ctx.waker_sender_cache.lookup id = some sh →
      Context.send_waker reg ctx id w = ⟨ctx, some (sh, w), false, false⟩) ∧
    (ctx.waker_sender_cache.lookup id = none →
      reg.waker_senders.lookup id = some sv →
      Context.send_waker reg ctx id w =
        ⟨⟨ctx.unpark_cache, (id, sv) :: ctx.waker_sender_cache⟩,
          some (sv, w), true, false⟩ ∧
      Context.send_waker reg
          ⟨ctx.unpark_cache, (id, sv) :: ctx.waker_sender_cache⟩ id w =
        ⟨⟨ctx.unpark_cache, (id, sv) :: ctx.waker_sender_cache⟩,
          some (sv, w), false, false⟩) := by
  refine ⟨?_, ?_, ?_, ?_⟩
  · intro h
    simp [Context.unpark_thread, h]
  · intro h1 h2
    constructor
    · simp [Context.unpark_thread, h1, h2]
    · simp [Context.unpark_thread, List.lookup]
  · intro h
    simp [Context.send_waker, h]
  · intro h1 h2
    constructor
    · simp [Context.send_waker, h1, h2]
    · simp [Context.send_waker, List.lookup]

/-- C9 witness: with thread id 3 registered globally as handle 10 and
sender 20, and a second context that already caches handle 11 and sender
21: a cache hit consults no global state; a miss fills the cache and the
repeat call is a pure cache hit. -/
theorem c9_peer_endpoint_cache_witness :
    Context.unpark_thread ⟨[(3, 10)], [(3, 20)]⟩ ⟨[(3, 11)], [(3, 21)]⟩ 3 =
      ⟨⟨[(3, 11)], [(3, 21)]⟩, some 11, false, false⟩ ∧
    Context.unpark_thread ⟨[(3, 10)], [(3, 20)]⟩ ⟨[], []⟩ 3 =
      ⟨⟨[(3, 10)], []⟩, some 10, true, false⟩ ∧
    Context.unpark_thread ⟨[(3, 10)], [(3, 20)]⟩ ⟨[(3, 10)], []⟩ 3 =
      ⟨⟨[(3, 10)], []⟩, some 10, false, false⟩ ∧
    Context.send_waker ⟨[(3, 10)], [(3, 20)]⟩ ⟨[(3, 11)], [(3, 21)]⟩ 3 9 =
      ⟨⟨[(3, 11)], [(3, 21)]⟩, some (21, 9), false, false⟩ ∧
    Context.send_waker ⟨[(3, 10)], [(3, 20)]⟩ ⟨[], []⟩ 3 9 =
      ⟨⟨[], [(3, 20)]⟩, some (20, 9), true, false⟩ ∧
    Context.send_waker ⟨[(3, 10)], [(3, 20)]⟩ ⟨[], [(3, 20)]⟩ 3 9 =
      ⟨⟨[], [(3, 20)]⟩, some (20, 9), false, false⟩ := by
  refine ⟨?_, ?_, ?_, ?_, ?_, ?_⟩
  · exact (c9_peer_endpoint_cache ⟨[(3, 10)], [(3, 20)]⟩ ⟨[(3, 11)], [(3, 21)]⟩
      3 9 11 10 21 20).1 rfl
  · exact ((c9_peer_endpoint_cache ⟨[(3, 10)], [(3, 20)]⟩ ⟨[], []⟩
      3 9 11 10 21 20).2.1 rfl rfl).1
  · exact ((c9_peer_endpoint_cache ⟨[(3, 10)], [(3, 20)]⟩ ⟨[], []⟩
      3 9 11 10 21 20).2.1 rfl rfl).2
  · exact (c9_peer_endpoint_cache ⟨[(3, 10)], [(3, 20)]⟩ ⟨[(3, 11)], [(3, 21)]⟩
      3 9 11 10 21 20).2.2.1 rfl
  · exact ((c9_peer_endpoint_cache ⟨[(3, 10)], [(3, 20)]⟩ ⟨[], []⟩
      3 9 11 10 21 20).2.2.2 rfl rfl).1
  · exact ((c9_peer_endpoint_cache ⟨[(3, 10)], [(3, 20)]⟩ ⟨[], []⟩
      3 9 11 10 21 20).2.2.2 rfl rfl).2
